import Mathlib

/-!
Verification of `src/backend/glutin/android_surface_texture.rs`: the glium
backend adaptor for an Android SurfaceTexture-backed glutin context.

The Rust code is shallowly embedded as pure state-passing functions.
The shared `Rc<RefCell<Takeable<glutin::Context<Pc>>>>` currency cell is
modelled as a `Cell` value carrying its content (`Option GlutinContext`,
`none` = taken/emptied) together with a borrow flag; RefCell borrow
failures and `Takeable`/`unwrap` failures are modelled as `Panic` outcomes.
`make_current` is embedded as a function that, besides its outcome, emits
the ordered list of events it performs and the cell state after each event,
so that temporal and reentrancy properties can be stated over real traces.
-/

/-- Borrow state of the RefCell holding the currency cell: unborrowed,
shared-borrowed (`n + 1` outstanding `Ref`s), or exclusively borrowed
(one outstanding `RefMut`). -/
inductive BorrowFlag
  | free
  | shared (n : Nat)
  | exclusive
deriving DecidableEq

/-- The externally created platform GL context (glutin's `Context<Pc>`),
modelled per the external-collaborator contract of the spec (§6): a currency
flag readable by `is_current`, a fallible not-current-to-current transition,
a capability bit consulted by the one-time compatibility probe, and a symbol
resolver for `get_proc_address`. -/
structure GlutinContext where
  /-- the context's currency flag on the calling thread -/
  current : Bool
  /-- whether the platform make-current transition succeeds on this context -/
  makeCurrentSucceeds : Bool
  /-- whether this GL implementation supports the features glium requires -/
  supportsRequiredFeatures : Bool
  /-- the platform symbol resolver; absent symbols resolve to the null address -/
  procAddrs : List (String × Nat)
deriving DecidableEq

/-- glutin's fallible `Context::<NotCurrent>::make_current` platform
transition: on success it yields the context with its currency flag set;
on failure it yields nothing. -/
def GlutinContext.platform_make_current (c : GlutinContext) : Option GlutinContext :=
  if c.makeCurrentSucceeds then some { c with current := true } else none

/-- glutin's `treat_as_current`: a type-state override only, with no
runtime effect on the context object. -/
def GlutinContext.treat_as_current (c : GlutinContext) : GlutinContext := c

/-- The currency cell: `RefCell<Takeable<glutin::Context<Pc>>>`.
`content = none` is the transient emptied (taken) state. -/
structure Cell where
  content : Option GlutinContext
  borrows : BorrowFlag
deriving DecidableEq

/-- Runtime failures of the embedded code: RefCell borrow conflicts,
dereferencing a taken `Takeable`, and the `.unwrap()` on the platform
make-current result. -/
inductive Panic
  | borrowMutConflict
  | borrowConflict
  | takeableEmpty
  | unwrapFailed
deriving DecidableEq

/-- A reentrant read of the currency cell (`RefCell::borrow` issued by any
operation other than the in-flight `make_current`): it fails if an exclusive
borrow is outstanding, and otherwise observes the `Takeable` content. -/
def Cell.try_borrow (c : Cell) : Except Panic (Option GlutinContext) :=
  match c.borrows with
  | .exclusive => .error .borrowConflict
  | _ => .ok c.content

/-- The external Android SurfaceTexture handle. `attachedTo` records which
GL texture id it is attached to; `width`/`height` are the actual current
dimensions of the external surface (owned by the platform, not by the
backend). -/
structure SurfaceTexture where
  attachedTo : Option Nat
  width : Nat
  height : Nat
deriving DecidableEq

/-- SurfaceTexture's external `attach_to_gl_context(texture_id)` primitive. -/
def SurfaceTexture.attach_to_gl_context (st : SurfaceTexture) (texture_id : Nat) : SurfaceTexture :=
  { st with attachedTo := some texture_id }

/-- glium's `SwapBuffersError` (from `crate::SwapBuffersError`). -/
inductive SwapBuffersError
  | contextLost
  | alreadySwapped
deriving DecidableEq

/-- The backend adaptor `GlutinBackend`: the shared currency cell, the
captured SurfaceTexture handle, and the attached texture id. -/
structure GlutinBackend where
  glutin_context : Cell
  surface_texture : SurfaceTexture
  texture_id : Nat
deriving DecidableEq

/-- Backend `swap_buffers`: the body is `Ok(())` on `&self`; modelled as
returning the result together with the (necessarily unchanged) state. -/
def GlutinBackend.swap_buffers (b : GlutinBackend) :
    Except SwapBuffersError Unit × GlutinBackend :=
  (.ok (), b)

/-- Backend `get_framebuffer_dimensions`: the body returns the fixed pair
`(800, 600)` (source comment: "FIXME: these are random"). -/
def GlutinBackend.get_framebuffer_dimensions (_b : GlutinBackend) : Nat × Nat :=
  (800, 600)

/-- The actual current dimensions of the external surface, as owned by the
platform; what a genuine framebuffer-size query would report. -/
def GlutinBackend.actual_surface_dimensions (b : GlutinBackend) : Nat × Nat :=
  (b.surface_texture.width, b.surface_texture.height)

/-- Backend `is_current`: `self.0.borrow().is_current()` — a shared borrow
of the cell (panics on an outstanding exclusive borrow), a deref of the
`Takeable` (panics if taken), then a read of the currency flag. -/
def GlutinBackend.is_current (b : GlutinBackend) : Except Panic Bool :=
  match b.glutin_context.borrows with
  | .exclusive => .error .borrowConflict
  | _ =>
    match b.glutin_context.content with
    | none => .error .takeableEmpty
    | some c => .ok c.current

/-- Backend `get_proc_address`: `self.0.borrow().get_proc_address(symbol)`,
delegated to the platform resolver; unresolved symbols yield the null
address. -/
def GlutinBackend.get_proc_address (b : GlutinBackend) (symbol : String) : Except Panic Nat :=
  match b.glutin_context.borrows with
  | .exclusive => .error .borrowConflict
  | _ =>
    match b.glutin_context.content with
    | none => .error .takeableEmpty
    | some c => .ok ((c.procAddrs.lookup symbol).getD 0)

/-- The observable events `make_current` performs, in program order. -/
inductive Event
  | borrow_mut
  | take
  | platform_transition (success : Bool)
  | insert
  | attach (texture_id : Nat)
  | release_borrow
deriving DecidableEq

/-- One run of `make_current`: its outcome (the updated backend, or a
panic), the ordered list of events it performed before completing or
panicking, and the currency-cell state immediately after each event. -/
structure MCRun where
  outcome : Except Panic GlutinBackend
  events : List Event
  cells : List Cell

/-- Backend `make_current`, statement by statement:
`let mut gl_window_takeable = self.0.borrow_mut();` (exclusive borrow,
panics on any outstanding borrow);
`let gl_window = Takeable::take(&mut gl_window_takeable);` (empties the
cell, panics if already taken);
`let gl_window_new = gl_window.make_current().unwrap();` (platform
transition; `.unwrap()` panics on failure);
`Takeable::insert(&mut gl_window_takeable, gl_window_new);` (re-inserts);
`self.surface_texture.attach_to_gl_context(self.texture_id);` (external
attach, performed while the exclusive borrow is still held);
end of scope drops the `RefMut`, releasing the borrow. -/
def GlutinBackend.make_current (b : GlutinBackend) : MCRun :=
  match b.glutin_context.borrows with
  | .shared _ => { outcome := .error .borrowMutConflict, events := [], cells := [] }
  | .exclusive => { outcome := .error .borrowMutConflict, events := [], cells := [] }
  | .free =>
    let c1 : Cell := { content := b.glutin_context.content, borrows := .exclusive }
    match b.glutin_context.content with
    | none =>
      { outcome := .error .takeableEmpty
        events := [.borrow_mut]
        cells := [c1] }
    | some ctx =>
      let c2 : Cell := { content := none, borrows := .exclusive }
      match ctx.platform_make_current with
      | none =>
        { outcome := .error .unwrapFailed
          events := [.borrow_mut, .take, .platform_transition false]
          cells := [c1, c2, c2] }
      | some ctx2 =>
        let c3 : Cell := { content := some ctx2, borrows := .exclusive }
        let c4 : Cell := { content := some ctx2, borrows := .free }
        { outcome := .ok
            { b with
              glutin_context := c4
              surface_texture := b.surface_texture.attach_to_gl_context b.texture_id }
          events := [.borrow_mut, .take, .platform_transition true, .insert,
                     .attach b.texture_id, .release_borrow]
          cells := [c1, c2, c2, c3, c3, c4] }

/-- Whether an event is the SurfaceTexture attach step. -/
def Event.isAttach : Event → Bool
  | .attach _ => true
  | _ => false

/-- Whether an event is the re-insertion of the context into the cell. -/
def Event.isInsert : Event → Bool
  | .insert => true
  | _ => false

/-- glium's debug-callback configuration (`debug::DebugCallbackBehavior`).
Modelled from the spec: the configuration selects how GL debug and error
messages are surfaced, is delegated to the GraphicsContext constructor, and
is not part of this core's logic; its `Default::default()` value is a fixed
distinguished variant. -/
inductive DebugCallbackBehavior
  | Ignore
  | PrintAll
  | DebugMessageOnError
deriving DecidableEq

/-- The `Default::default()` debug-callback configuration. -/
def DebugCallbackBehavior.default : DebugCallbackBehavior := .DebugMessageOnError

/-- glium's typed construction-time error `IncompatibleOpenGl` (a message
wrapper). -/
structure IncompatibleOpenGl where
  msg : String
deriving DecidableEq

/-- The one-time compatibility probe run by the GraphicsContext constructor
over the backend: it queries the platform GL implementation reachable
through the currency cell for the features glium requires. -/
def GlutinBackend.compat_probe (b : GlutinBackend) : Bool :=
  match b.glutin_context.content with
  | some c => c.supportsRequiredFeatures
  | none => false

/-- The higher-level owning graphics context (`context::Context`). -/
structure ContextState where
  backend : GlutinBackend
  debug : DebugCallbackBehavior
  checked : Bool
deriving DecidableEq

/-- Modelled from the spec: `context::Context::new` is repository code
outside this core's source. Per the spec it accepts a backend, a
checked/unchecked flag and a debug-callback configuration, runs the
one-time compatibility probe exactly when `checked`, and returns either
the constructed context or the typed incompatibility error. -/
def ContextState.new (b : GlutinBackend) (checked : Bool) (debug : DebugCallbackBehavior) :
    Except IncompatibleOpenGl ContextState :=
  if checked && !b.compat_probe then
    .error { msg := "The OpenGL implementation is too old to work with glium" }
  else
    .ok { backend := b, debug := debug, checked := checked }

/-- The graphics context's framebuffer-size query, delegated to its
backend. -/
def ContextState.get_framebuffer_dimensions (c : ContextState) : Nat × Nat :=
  c.backend.get_framebuffer_dimensions

/-- A `Frame`: a handle bound to the shared graphics context and the
dimensions captured at its construction. -/
structure Frame where
  context : ContextState
  dimensions : Nat × Nat
deriving DecidableEq

/-- Frame constructor `Frame::new(context, dimensions)`. -/
def Frame.new (c : ContextState) (d : Nat × Nat) : Frame :=
  { context := c, dimensions := d }

/-- The public wrapper `SurfaceBacked`: the graphics context plus a second
handle to the currency cell (in the source both handles are clones of one
`Rc`, so they denote the same cell; the embedding constructs them equal). -/
structure SurfaceBacked where
  context : ContextState
  glutin : Cell
deriving DecidableEq

/-- `SurfaceBacked::new_inner`, statement by statement: treat the supplied
context as current (type-state override), wrap it in a fresh currency cell,
build the backend adaptor from cell + surface texture + texture id, then
construct the graphics context over the adaptor (running the compatibility
probe when `checked`), propagating its error with `?`. -/
def SurfaceBacked.new_inner (context : GlutinContext) (debug : DebugCallbackBehavior)
    (checked : Bool) (surface_texture : SurfaceTexture) (texture_id : Nat) :
    Except IncompatibleOpenGl SurfaceBacked :=
  let context1 := context.treat_as_current
  let glutin_context : Cell := { content := some context1, borrows := .free }
  let glutin_backend : GlutinBackend :=
    { glutin_context := glutin_context
      surface_texture := surface_texture
      texture_id := texture_id }
  match ContextState.new glutin_backend checked debug with
  | .error e => .error e
  | .ok ctx => .ok { context := ctx, glutin := glutin_context }

/-- `SurfaceBacked::with_debug`: delegates to `new_inner` with
`checked = true`. -/
def SurfaceBacked.with_debug (context : GlutinContext) (debug : DebugCallbackBehavior)
    (surface_texture : SurfaceTexture) (texture_id : Nat) :
    Except IncompatibleOpenGl SurfaceBacked :=
  SurfaceBacked.new_inner context debug true surface_texture texture_id

/-- `SurfaceBacked::unchecked_with_debug`: delegates to `new_inner` with
`checked = false`. -/
def SurfaceBacked.unchecked_with_debug (context : GlutinContext) (debug : DebugCallbackBehavior)
    (surface_texture : SurfaceTexture) (texture_id : Nat) :
    Except IncompatibleOpenGl SurfaceBacked :=
  SurfaceBacked.new_inner context debug false surface_texture texture_id

/-- `SurfaceBacked::new`: delegates to `with_debug` with the default
debug-callback configuration. -/
def SurfaceBacked.new (context : GlutinContext) (surface_texture : SurfaceTexture)
    (texture_id : Nat) : Except IncompatibleOpenGl SurfaceBacked :=
  SurfaceBacked.with_debug context DebugCallbackBehavior.default surface_texture texture_id

/-- `SurfaceBacked::unchecked`: delegates to `unchecked_with_debug` with the
default debug-callback configuration. -/
def SurfaceBacked.unchecked (context : GlutinContext) (surface_texture : SurfaceTexture)
    (texture_id : Nat) : Except IncompatibleOpenGl SurfaceBacked :=
  SurfaceBacked.unchecked_with_debug context DebugCallbackBehavior.default surface_texture
    texture_id

/-- `SurfaceBacked::gl_context`: a read-only borrow of the underlying
platform context through the wrapper's cell handle. -/
def SurfaceBacked.gl_context (s : SurfaceBacked) : Except Panic GlutinContext :=
  match s.glutin.try_borrow with
  | .error e => .error e
  | .ok none => .error .takeableEmpty
  | .ok (some c) => .ok c

/-- `SurfaceBacked::draw`:
`Frame::new(self.context.clone(), self.get_framebuffer_dimensions())` —
the dimensions are obtained by a fresh call at draw time, resolved through
the graphics context to the backend. -/
def SurfaceBacked.draw (s : SurfaceBacked) : Frame :=
  Frame.new s.context s.context.get_framebuffer_dimensions

/-- Models an external resize of the platform surface between two calls:
only the surface's actual dimensions change. -/
def SurfaceBacked.after_surface_resize (s : SurfaceBacked) (w h : Nat) : SurfaceBacked :=
  { s with
    context :=
      { s.context with
        backend :=
          { s.context.backend with
            surface_texture :=
              { s.context.backend.surface_texture with width := w, height := h } } } }

/-- A compatible platform context on which the make-current transition
succeeds. -/
def okCtx : GlutinContext :=
  { current := false, makeCurrentSucceeds := true, supportsRequiredFeatures := true
    procAddrs := [] }

/-- A platform context on which the platform make-current transition
fails. -/
def failCtx : GlutinContext :=
  { current := false, makeCurrentSucceeds := false, supportsRequiredFeatures := true
    procAddrs := [] }

/-- A platform context whose GL implementation lacks a required
capability. -/
def incompatCtx : GlutinContext :=
  { current := false, makeCurrentSucceeds := true, supportsRequiredFeatures := false
    procAddrs := [] }

/-- A demo backend in the quiescent state (cell occupied and unborrowed). -/
def bdemo : GlutinBackend :=
  { glutin_context := { content := some okCtx, borrows := .free }
    surface_texture := { attachedTo := none, width := 800, height := 600 }
    texture_id := 7 }

/-- The backend state `bdemo.make_current` results in. -/
def bdemoAfter : GlutinBackend :=
  { glutin_context :=
      { content := some { okCtx with current := true }, borrows := .free }
    surface_texture := { attachedTo := some 7, width := 800, height := 600 }
    texture_id := 7 }

/-- A demo backend whose platform make-current transition fails. -/
def bfail : GlutinBackend :=
  { bdemo with glutin_context := { content := some failCtx, borrows := .free } }

/-- A demo backend whose external surface actually measures 1024 by 768. -/
def b1024 : GlutinBackend :=
  { bdemo with surface_texture := { attachedTo := none, width := 1024, height := 768 } }

/-- A demo surface texture. -/
def stdemo : SurfaceTexture := { attachedTo := none, width := 800, height := 600 }

/-- A demo wrapper, as produced by checked construction over `bdemo`. -/
def sdemo : SurfaceBacked :=
  { context := { backend := bdemo, debug := .DebugMessageOnError, checked := true }
    glutin := { content := some okCtx, borrows := .free } }

/-- Claim C5: for every backend state, `swap_buffers` returns `Ok(())` —
never a `SwapBuffersError` — and leaves the whole backend state (currency
cell, surface-texture handle and texture id) unchanged. -/
theorem swap_buffers_ok_and_state_unchanged (b : GlutinBackend) :
    (b.swap_buffers).1 = Except.ok ()
      ∧ (b.swap_buffers).2 = b
      ∧ (b.swap_buffers).2.glutin_context = b.glutin_context
      ∧ (b.swap_buffers).2.surface_texture = b.surface_texture
      ∧ (b.swap_buffers).2.texture_id = b.texture_id :=
  ⟨rfl, rfl, rfl, rfl, rfl⟩

/-- Claim C7: all four public constructors converge on the single internal
builder `new_inner`: `new` equals `with_debug` at the default debug
configuration, `with_debug` is `new_inner` with the compatibility check
enabled, `unchecked` equals `unchecked_with_debug` at the default debug
configuration, and `unchecked_with_debug` is `new_inner` with the check
disabled. -/
theorem constructors_converge_on_new_inner (ctx : GlutinContext)
    (dbg : DebugCallbackBehavior) (st : SurfaceTexture) (tid : Nat) :
    SurfaceBacked.new ctx st tid
        = SurfaceBacked.with_debug ctx DebugCallbackBehavior.default st tid
      ∧ SurfaceBacked.with_debug ctx dbg st tid
        = SurfaceBacked.new_inner ctx dbg true st tid
      ∧ SurfaceBacked.unchecked ctx st tid
        = SurfaceBacked.unchecked_with_debug ctx DebugCallbackBehavior.default st tid
      ∧ SurfaceBacked.unchecked_with_debug ctx dbg st tid
        = SurfaceBacked.new_inner ctx dbg false st tid :=
  ⟨rfl, rfl, rfl, rfl⟩

/-- Claim C10: for every backend state, `get_framebuffer_dimensions`
returns exactly the constant pair `(800, 600)`, and consequently every
`Frame` produced by `draw` carries the dimensions `(800, 600)`. -/
theorem dimensions_always_800_600 :
    (∀ b : GlutinBackend, b.get_framebuffer_dimensions = (800, 600))
      ∧ (∀ s : SurfaceBacked, (s.draw).dimensions = (800, 600)) :=
  ⟨fun _ => rfl, fun _ => rfl⟩

/-- Claim C4 (code bug evaluation): on a backend whose external surface
actually measures 1024 by 768, `get_framebuffer_dimensions` still returns
the placeholder `(800, 600)`, which differs from the actual surface
dimensions — the code contradicts its own FIXME comment and the spec's
requirement to return the actual size. -/
theorem get_framebuffer_dimensions_placeholder_defect :
    b1024.get_framebuffer_dimensions = (800, 600)
      ∧ b1024.actual_surface_dimensions = (1024, 768)
      ∧ b1024.get_framebuffer_dimensions ≠ b1024.actual_surface_dimensions := by
  refine ⟨rfl, rfl, ?_⟩
  decide

/-- Claim C8 (code bug evaluation): `draw` does query the dimensions
freshly at each call, but because the query is the constant placeholder,
a resize of the external surface to 1024 by 768 between two `draw` calls
is not reflected in the second call's Frame: both Frames carry
`(800, 600)`. -/
theorem draw_does_not_reflect_resize_defect :
    (sdemo.draw).dimensions = (800, 600)
      ∧ ((sdemo.after_surface_resize 1024 768).draw).dimensions = (800, 600)
      ∧ ((sdemo.after_surface_resize 1024 768).context.backend).actual_surface_dimensions
          = (1024, 768)
      ∧ ((sdemo.after_surface_resize 1024 768).draw).dimensions ≠ (1024, 768) := by
  refine ⟨rfl, rfl, rfl, ?_⟩
  decide

/-- Claim C3: if the platform make-current transition inside `make_current`
fails, the operation panics (the `.unwrap()` on the transition result) —
it never returns normally, so no caller can proceed with an emptied or
ambiguous currency cell. -/
theorem make_current_platform_failure_panics (b : GlutinBackend) (ctx : GlutinContext)
    (hb : b.glutin_context.borrows = BorrowFlag.free)
    (hc : b.glutin_context.content = some ctx)
    (hf : ctx.makeCurrentSucceeds = false) :
    (b.make_current).outcome = Except.error Panic.unwrapFailed := by
  rcases b with ⟨⟨content, borrows⟩, st, tid⟩
  simp only at hb hc
  subst hb
  subst hc
  simp [GlutinBackend.make_current, GlutinContext.platform_make_current, hf]

/-- Closed instance of `make_current_platform_failure_panics` at a concrete
backend whose platform transition fails. -/
theorem make_current_platform_failure_panics_witness :
    (bfail.make_current).outcome = Except.error Panic.unwrapFailed :=
  make_current_platform_failure_panics bfail failCtx rfl rfl rfl

/-- Claim C9: every `make_current` call that completes successfully leaves
the cell holding a current-typed context, so an `is_current` query issued
immediately afterward succeeds and returns true. -/
theorem make_current_success_implies_is_current (b b2 : GlutinBackend)
    (h : (b.make_current).outcome = Except.ok b2) :
    b2.is_current = Except.ok true := by
  rcases b with ⟨⟨content, borrows⟩, st, tid⟩
  cases borrows with
  | shared n => simp [GlutinBackend.make_current] at h
  | exclusive => simp [GlutinBackend.make_current] at h
  | free =>
    cases content with
    | none => simp [GlutinBackend.make_current] at h
    | some ctx =>
      by_cases hs : ctx.makeCurrentSucceeds
      · simp [GlutinBackend.make_current, GlutinContext.platform_make_current, hs] at h
        subst h
        rfl
      · simp [GlutinBackend.make_current, GlutinContext.platform_make_current, hs] at h

/-- Closed instance of `make_current_success_implies_is_current` at a
concrete successful run. -/
theorem make_current_success_implies_is_current_witness :
    bdemoAfter.is_current = Except.ok true :=
  make_current_success_implies_is_current bdemo bdemoAfter rfl

/-- Claim C6: constructing with the compatibility check enabled against a
platform GL implementation lacking a required capability yields the typed
`IncompatibleOpenGl` error and no wrapper value, while constructing with
the check disabled against the same implementation succeeds. -/
theorem checked_construction_rejects_incompatible (ctx : GlutinContext)
    (dbg : DebugCallbackBehavior) (st : SurfaceTexture) (tid : Nat)
    (h : ctx.supportsRequiredFeatures = false) :
    (∃ e, SurfaceBacked.with_debug ctx dbg st tid = Except.error e)
      ∧ ∃ w, SurfaceBacked.unchecked_with_debug ctx dbg st tid = Except.ok w := by
  constructor
  · refine ⟨{ msg := "The OpenGL implementation is too old to work with glium" }, ?_⟩
    simp [SurfaceBacked.with_debug, SurfaceBacked.new_inner, ContextState.new,
      GlutinBackend.compat_probe, GlutinContext.treat_as_current, h]
  · exact ⟨_, rfl⟩

/-- Closed instance of `checked_construction_rejects_incompatible` at a
concrete incompatible platform implementation. -/
theorem checked_construction_rejects_incompatible_witness :
    (∃ e, SurfaceBacked.with_debug incompatCtx DebugCallbackBehavior.DebugMessageOnError
        stdemo 7 = Except.error e)
      ∧ ∃ w, SurfaceBacked.unchecked_with_debug incompatCtx
          DebugCallbackBehavior.DebugMessageOnError stdemo 7 = Except.ok w :=
  checked_construction_rejects_incompatible incompatCtx
    DebugCallbackBehavior.DebugMessageOnError stdemo 7 rfl

/-- Claim C1: in every run of `make_current`, whenever the SurfaceTexture
attach event appears in the emitted trace, the re-insertion of the
current-typed context into the currency cell appears strictly earlier —
the attach is never invoked before the re-insertion completes. -/
theorem attach_strictly_after_insert (b : GlutinBackend) (j t : Nat)
    (h : (b.make_current).events.get? j = some (Event.attach t)) :
    ∃ i, i < j ∧ (b.make_current).events.get? i = some Event.insert := by
  rcases b with ⟨⟨content, borrows⟩, st, tid⟩
  cases borrows with
  | shared n => simp [GlutinBackend.make_current] at h
  | exclusive => simp [GlutinBackend.make_current] at h
  | free =>
    cases content with
    | none =>
      rcases j with _ | j <;>
        simp [GlutinBackend.make_current] at h
    | some ctx =>
      by_cases hs : ctx.makeCurrentSucceeds
      · simp only [GlutinBackend.make_current, GlutinContext.platform_make_current, hs,
          if_pos] at h ⊢
        rcases j with _ | _ | _ | _ | _ | _ | j <;> simp at h
        exact ⟨3, by omega, rfl⟩
      · rcases j with _ | _ | _ | j <;>
          simp [GlutinBackend.make_current, GlutinContext.platform_make_current, hs] at h

/-- Closed instance of `attach_strictly_after_insert` at a concrete
successful run: the attach event sits at index 4, after the insert. -/
theorem attach_strictly_after_insert_witness :
    ∃ i, i < 4 ∧ (bdemo.make_current).events.get? i = some Event.insert :=
  attach_strictly_after_insert bdemo 4 7 rfl

/-- Claim C2: the currency cell is never observably empty to any borrower
other than the in-flight `make_current` itself. At every intermediate
point of a `make_current` run, a reentrant read either fails on the
outstanding exclusive borrow or observes an occupied cell — it can never
return an emptied cell; every successful run ends with the cell occupied
and unborrowed; and construction through `new_inner` produces an occupied,
unborrowed cell. -/
theorem cell_never_observably_empty (b : GlutinBackend) :
    (∀ c ∈ (b.make_current).cells, c.try_borrow ≠ Except.ok none)
      ∧ (∀ b2, (b.make_current).outcome = Except.ok b2 →
          ∃ ctx, b2.glutin_context = { content := some ctx, borrows := BorrowFlag.free })
      ∧ (∀ (ctx : GlutinContext) (dbg : DebugCallbackBehavior) (chk : Bool)
          (st : SurfaceTexture) (tid : Nat) (w : SurfaceBacked),
          SurfaceBacked.new_inner ctx dbg chk st tid = Except.ok w →
          w.glutin = { content := some ctx, borrows := BorrowFlag.free }) := by
  refine ⟨?_, ?_, ?_⟩
  · rcases b with ⟨⟨content, borrows⟩, st, tid⟩
    cases borrows with
    | shared n => simp [GlutinBackend.make_current]
    | exclusive => simp [GlutinBackend.make_current]
    | free =>
      cases content with
      | none =>
        simp [GlutinBackend.make_current, Cell.try_borrow]
      | some ctx =>
        by_cases hs : ctx.makeCurrentSucceeds <;>
          simp [GlutinBackend.make_current, GlutinContext.platform_make_current, hs,
            Cell.try_borrow]
  · rcases b with ⟨⟨content, borrows⟩, st, tid⟩
    intro b2 h
    cases borrows with
    | shared n => simp [GlutinBackend.make_current] at h
    | exclusive => simp [GlutinBackend.make_current] at h
    | free =>
      cases content with
      | none => simp [GlutinBackend.make_current] at h
      | some ctx =>
        by_cases hs : ctx.makeCurrentSucceeds
        · simp [GlutinBackend.make_current, GlutinContext.platform_make_current, hs] at h
          subst h
          exact ⟨_, rfl⟩
        · simp [GlutinBackend.make_current, GlutinContext.platform_make_current, hs] at h
  · intro ctx dbg chk st tid w h
    cases chk with
    | false =>
      simp [SurfaceBacked.new_inner, ContextState.new, GlutinContext.treat_as_current] at h
      subst h
      rfl
    | true =>
      by_cases hsup : ctx.supportsRequiredFeatures
      · simp [SurfaceBacked.new_inner, ContextState.new, GlutinContext.treat_as_current,
          GlutinBackend.compat_probe, hsup] at h
        subst h
        rfl
      · simp [SurfaceBacked.new_inner, ContextState.new, GlutinContext.treat_as_current,
          GlutinBackend.compat_probe, hsup] at h

/-- Closed instance of `cell_never_observably_empty`: the emptied,
exclusively borrowed cell occurring mid-transition in a concrete run is not
readable as an empty cell by a reentrant borrow. -/
theorem cell_never_observably_empty_witness :
    (Cell.mk none BorrowFlag.exclusive).try_borrow ≠ Except.ok none :=
  (cell_never_observably_empty bdemo).1 (Cell.mk none BorrowFlag.exclusive) (by decide)
